import Mathlib

/-!
# Verification of fmplayer.player (src/fmplayer/player.py)

A shallow embedding of the concurrency-coordination layer of the fm-player
repository: the `Player` class (play / pause / resume and the two backend
callbacks), the `queue_watcher` queue-consumer loop and the `event_watcher`
control-event loop.

Modelling conventions:

* The external Spotify backend is represented by its operation surface: a
  resolution oracle standing for `session.get_track(uri).load()` (returning
  `none` when that call raises `spotify.error.LibError` or `ValueError`),
  a load-failure oracle for `session.player.load(track)` raising, and an
  explicit backend player state (`session.player.state`).
* The module-global `STOP_EVENT` threading.Event is a boolean field of the
  player state; `set` makes it `true`, `clear` makes it `false`, and
  `wait` blocks until it is `true`.
* Side effects on the backend and the signals are additionally journalled,
  in execution order, in a `trace : List Act`, so that ordering claims
  (clear-before-play, unload-before-set) can be stated.
* A Python exception that propagates out of a modelled function is returned
  as `some (e : PyError)` next to the mutated state: state changes made
  before the raise persist, exactly as in Python.
* In `Player.play`, the `except` handler executes the attribute access
  `.uri` on the string literal `'Unable to play: ...'`; a `str` has no
  attribute `uri`, so the handler itself raises `AttributeError`, which is
  not caught by anything. The embedding returns `PyError.attributeError`
  on that path rather than logging and returning normally.
-/

/-- The backend player state enumeration (`spotify.PlayerState`), restricted
to the values this program reads or produces. -/
inductive PlayerState where
  | unloaded
  | loaded
  | playing
  | paused
  deriving DecidableEq, Repr

/-- A resolved backend track object, the result of
`session.get_track(uri).load()`. -/
structure Track where
  uri : String
  deriving DecidableEq, Repr

/-- Journalled side effects, in execution order: backend requests and
operations on the module-global `STOP_EVENT`. -/
inductive Act where
  | getTrack (uri : String)  -- session.get_track(uri).load()
  | loadReq (t : Track)      -- session.player.load(track)
  | playReq                  -- session.player.play()
  | pauseReq                 -- session.player.pause()
  | unloadReq                -- session.player.unload()
  | setStop                  -- STOP_EVENT.set()
  | clearStop                -- STOP_EVENT.clear()
  deriving DecidableEq, Repr

/-- Python exceptions that can propagate out of the modelled functions. -/
inductive PyError where
  | attributeError
  | valueError
  | typeError
  deriving DecidableEq, Repr

/-- The operation surface of the `spotify.Session` consumed by `Player`,
plus the backend player's own mutable state. -/
structure Session where
  /-- Behaviour of `session.get_track(uri).load()`: the resolved track, or
  `none` when the call raises `LibError`/`ValueError`. -/
  resolve : String → Option Track
  /-- Whether `session.player.load(track)` raises for a given track. -/
  loadFails : Track → Bool
  /-- `session.player.state`. -/
  playerState : PlayerState
  /-- The track currently loaded in the backend player, if any. -/
  loadedTrack : Option Track

/-- The state touched by the `Player` methods: the session/backend, the
module-global `STOP_EVENT`, and the journal of side effects. -/
structure Player where
  session : Session
  stopEvent : Bool
  trace : List Act

/-- `Player.play(uri)` from src/fmplayer/player.py.

```
try:
    track = self.session.get_track(uri).load()
    self.session.player.load(track)
    self.session.player.play()
except (spotify.error.LibError, ValueError):
    logger.error('Unable to play: ...'.uri)
else:
    STOP_EVENT.clear()
```

On the success path the backend loads the track and starts playback, and
only then is `STOP_EVENT` cleared (the `else` clause). On the failure path
the handler's `.uri` attribute access on a string raises `AttributeError`,
which propagates to the caller; the backend player state and `STOP_EVENT`
are not modified on that path. -/
def Player.play (self : Player) (uri : String) : Player × Option PyError :=
  match self.session.resolve uri with
  | none =>
      -- get_track(uri).load() raised; the except handler then raises
      -- AttributeError on the string attribute access.
      ({ self with trace := self.trace ++ [Act.getTrack uri] },
       some PyError.attributeError)
  | some track =>
      if self.session.loadFails track then
        -- session.player.load(track) raised; same broken handler.
        ({ self with trace := self.trace ++ [Act.getTrack uri, Act.loadReq track] },
         some PyError.attributeError)
      else
        ({ self with
            session := { self.session with
                          playerState := PlayerState.playing,
                          loadedTrack := some track },
            stopEvent := false,
            trace := self.trace ++
              [Act.getTrack uri, Act.loadReq track, Act.playReq, Act.clearStop] },
         none)

/-- `Player.pause()`: pauses only when the backend state is PLAYING,
otherwise logs and does nothing. -/
def Player.pause (self : Player) : Player :=
  if self.session.playerState = PlayerState.playing then
    { self with
        session := { self.session with playerState := PlayerState.paused },
        trace := self.trace ++ [Act.pauseReq] }
  else
    self

/-- `Player.resume()`: issues a backend play request only when the backend
state is PAUSED, otherwise logs and does nothing. -/
def Player.resume (self : Player) : Player :=
  if self.session.playerState = PlayerState.paused then
    { self with
        session := { self.session with playerState := PlayerState.playing },
        trace := self.trace ++ [Act.playReq] }
  else
    self

/-- `Player.on_track_of_end(session)`: the backend end-of-track callback.
Unloads the current track (`session.player.unload()`) and then sets
`STOP_EVENT`. -/
def Player.on_track_of_end (self : Player) : Player :=
  { self with
      session := { self.session with
                    playerState := PlayerState.unloaded,
                    loadedTrack := none },
      stopEvent := true,
      trace := self.trace ++ [Act.unloadReq, Act.setStop] }

/-- The audio sink classes selectable in `Player.__init__`. -/
inductive Sink where
  | alsaSink  -- spotify.AlsaSink
  | fakeSink  -- fmplayer.sinks.FakeSink
  deriving DecidableEq, Repr

/-- The `sinks` dictionary from `Player.__init__`. -/
def sinks : List (String × Sink) :=
  [("alsa", Sink.alsaSink), ("fake", Sink.fakeSink)]

/-- Sink selection in `Player.__init__`: `sinks.get(sink, FakeSink)`. -/
def selectSink (sink : String) : Sink :=
  (sinks.lookup sink).getD Sink.fakeSink

/-- A lifecycle message published on the pub/sub channel by `queue_watcher`:
the embedding of `json.dumps` applied to the dicts with event `play` / `end`
and the track uri. -/
inductive LEvent where
  | playEv (uri : String)
  | endEv (uri : String)
  deriving DecidableEq, Repr

/-- The state `queue_watcher` runs against: the Redis list at
`fm:player:queue` (front of the list first), the ordered sequence of
messages published on the channel, the `Player` state, and the journal of
`gevent.sleep` durations in milliseconds. -/
structure World where
  queue : List String
  published : List LEvent
  player : Player
  sleeps : List Nat

/-- One iteration of the `while True` loop of `queue_watcher`, with
`jitter` the value drawn by `random.randint(0, 2)` (so the sleep is
`jitter` milliseconds).

If `redis.llen(PLAYLIST_KEY) > 0`, the loop pops the front uri, calls
`player.play(uri)`, publishes the `play` lifecycle event, blocks on
`STOP_EVENT.wait()`, publishes the `end` lifecycle event; the iteration
finishes with `gevent.sleep(jitter * 0.001)` in both branches of the `if`.

An exception raised by `player.play` is not caught anywhere in
`queue_watcher`, so it propagates (returned as `some e`) with the pop
already performed and nothing published in that iteration.

`STOP_EVENT.wait()` blocks until the signal is true; the only place the
program sets it is the end-of-track callback `Player.on_track_of_end`, so
when the signal is false the wait is modelled by that callback firing. -/
def queue_watcher_step (jitter : Nat) (w : World) : World × Option PyError :=
  match w.queue with
  | [] =>
      ({ w with sleeps := w.sleeps ++ [jitter] }, none)
  | uri :: rest =>
      match Player.play w.player uri with
      | (p1, some e) =>
          ({ w with queue := rest, player := p1 }, some e)
      | (p1, none) =>
          let p2 := if p1.stopEvent then p1 else Player.on_track_of_end p1
          ({ queue := rest,
             published := w.published ++ [LEvent.playEv uri, LEvent.endEv uri],
             player := p2,
             sleeps := w.sleeps ++ [jitter] }, none)

/-- Running `queue_watcher` for `fuel` iterations, the jitter of iteration
`i` (counting from the first executed iteration) being `j i`. Stops early
when an iteration lets an exception propagate, as the real loop would die
there. -/
def queue_watcher_run (j : Nat → Nat) : Nat → World → World × Option PyError
  | 0, w => (w, none)
  | fuel + 1, w =>
      match queue_watcher_step (j 0) w with
      | (w1, none) => queue_watcher_run (fun i => j (i + 1)) fuel w1
      | (w1, some e) => (w1, some e)

/-- A Python value, as produced by `json.loads`. -/
inductive PyVal where
  | pstr (s : String)
  | pint (n : Int)
  | pbool (b : Bool)
  | pnone
  | plist (xs : List PyVal)
  | pdict (fields : List (String × PyVal))

/-- `dict.get(key)` on a parsed JSON object: the value, or None when the
key is absent (modelled by the surrounding `Option`). -/
def lookupPyDict (fields : List (String × PyVal)) (key : String) : Option PyVal :=
  match fields with
  | [] => none
  | (k, v) :: rest => if k = key then some v else lookupPyDict rest key

/-- A pub/sub envelope as yielded by `pubsub.listen()`: `item.get('type')`
and the result of `json.loads(item.get('data'))` — `none` when the payload
is not valid JSON and `json.loads` raises `ValueError`. (`json.loads` is
the Python standard library, external to this repository; it is modelled
by its contract.) -/
structure PubSubItem where
  itemType : String
  dataParse : Option PyVal

/-- A dispatch performed by `event_watcher`: which entry of its `events`
dict was invoked. -/
inductive Dispatch where
  | pauseCall
  | resumeCall
  deriving DecidableEq, Repr

/-- The body of the `for item in pubsub.listen()` loop of `event_watcher`,
for a single received item: returns the player state, the player methods
dispatched, and an exception if one propagates (killing the loop).

```
if item.get('type') == 'message':
    data = json.loads(item.get('data'))
    event = data.get('event')
    if event in events:
        function = events.get(event)
        function()
```

There is no exception handling in `event_watcher`: `json.loads` raising
`ValueError` on a non-JSON payload, `.get` raising `AttributeError` on a
non-dict payload, and the membership test `event in events` raising
`TypeError` on an unhashable `event` value all propagate. -/
def event_watcher_step (p : Player) (item : PubSubItem) :
    Player × List Dispatch × Option PyError :=
  if item.itemType = "message" then
    match item.dataParse with
    | none => (p, [], some PyError.valueError)
    | some (PyVal.pdict fields) =>
        match lookupPyDict fields "event" with
        | some (PyVal.pstr e) =>
            if e = "pause" then (Player.pause p, [Dispatch.pauseCall], none)
            else if e = "resume" then (Player.resume p, [Dispatch.resumeCall], none)
            else (p, [], none)
        | some (PyVal.pint _) => (p, [], none)
        | some (PyVal.pbool _) => (p, [], none)
        | some PyVal.pnone => (p, [], none)
        | some (PyVal.plist _) => (p, [], some PyError.typeError)
        | some (PyVal.pdict _) => (p, [], some PyError.typeError)
        | none => (p, [], none)
    | some _ => (p, [], some PyError.attributeError)
  else
    (p, [], none)

/-- `true` when some occurrence of `a` in `tr` is followed, strictly later,
by an occurrence of `b`. -/
def occursBefore (a b : Act) (tr : List Act) : Bool :=
  match tr with
  | [] => false
  | x :: rest => (x = a && rest.contains b) || occursBefore a b rest

/-- The lifecycle trace produced by successfully processing each uri of a
list in order: a `play` event immediately followed by the matching `end`
event, per uri. -/
def pairTrace : List String → List LEvent
  | [] => []
  | u :: us => LEvent.playEv u :: LEvent.endEv u :: pairTrace us

/-- Number of `play` lifecycle events for `u` in a published trace. -/
def countPlay (u : String) (tr : List LEvent) : Nat :=
  tr.count (LEvent.playEv u)

/-- Number of `end` lifecycle events for `u` in a published trace. -/
def countEnd (u : String) (tr : List LEvent) : Nat :=
  tr.count (LEvent.endEv u)

/-- A uri whose resolution and load both succeed against the given
player's backend. -/
def playable (p : Player) (u : String) : Bool :=
  match p.session.resolve u with
  | some t => !(p.session.loadFails t)
  | none => false

/-- A backend session where every uri resolves and loads. -/
def sessionOK : Session :=
  { resolve := fun u => some { uri := u },
    loadFails := fun _ => false,
    playerState := PlayerState.unloaded,
    loadedTrack := none }

/-- A backend session where track resolution always raises. -/
def sessionBad : Session :=
  { resolve := fun _ => none,
    loadFails := fun _ => false,
    playerState := PlayerState.unloaded,
    loadedTrack := none }

/-- Idle player, signal clear. -/
def pIdle : Player := { session := sessionOK, stopEvent := false, trace := [] }

/-- Idle player whose `STOP_EVENT` is still set from a previous track. -/
def pStopSet : Player := { session := sessionOK, stopEvent := true, trace := [] }

/-- Player against the failing backend, `STOP_EVENT` set. -/
def pBad : Player := { session := sessionBad, stopEvent := true, trace := [] }

/-- Player whose backend is currently playing. -/
def pPlaying : Player :=
  { session := { sessionOK with playerState := PlayerState.playing },
    stopEvent := false, trace := [] }

/-- Player whose backend is currently paused. -/
def pPaused : Player :=
  { session := { sessionOK with playerState := PlayerState.paused },
    stopEvent := false, trace := [] }

/-- World with an empty queue. -/
def wEmptyQ : World := { queue := [], published := [], player := pIdle, sleeps := [] }

/-- World with one playable track queued. -/
def wOneTrack : World := { queue := ["a"], published := [], player := pStopSet, sleeps := [] }

/-- World with two playable tracks queued. -/
def wTwoTracks : World := { queue := ["a", "b"], published := [], player := pIdle, sleeps := [] }

/-- World whose queued track cannot be resolved. -/
def wBad : World :=
  { queue := ["spotify:track:bad"], published := [], player := pBad, sleeps := [] }

/-- `Player.play` never changes the backend resolution/load oracles. -/
lemma play_oracles (p : Player) (uri : String) :
    (Player.play p uri).1.session.resolve = p.session.resolve ∧
    (Player.play p uri).1.session.loadFails = p.session.loadFails := by
  unfold Player.play
  cases hres : p.session.resolve uri with
  | none => exact ⟨rfl, rfl⟩
  | some t => cases hl : p.session.loadFails t <;> simp [hl]

/-- `playable` depends only on the resolution/load oracles. -/
lemma playable_congr (p q : Player)
    (hres : q.session.resolve = p.session.resolve)
    (hload : q.session.loadFails = p.session.loadFails) (u : String) :
    playable q u = playable p u := by
  unfold playable
  rw [hres, hload]

/-- On a playable uri, `Player.play` succeeds and performs exactly the
success-path updates. -/
lemma play_success (p : Player) (u : String) (h : playable p u = true) :
    ∃ t, p.session.resolve u = some t ∧
      Player.play p u =
        ({ p with
            session := { p.session with
                          playerState := PlayerState.playing,
                          loadedTrack := some t },
            stopEvent := false,
            trace := p.trace ++
              [Act.getTrack u, Act.loadReq t, Act.playReq, Act.clearStop] }, none) := by
  unfold playable at h
  cases hres : p.session.resolve u with
  | none => rw [hres] at h; simp at h
  | some t =>
    rw [hres] at h
    simp at h
    refine ⟨t, rfl, ?_⟩
    unfold Player.play
    rw [hres]
    simp [h]

/-- A queue-consumer iteration that pops a playable uri: no exception, the
uri is popped, the play and end lifecycle events are published in order,
the iteration ends with the jittered sleep, and the backend oracles are
preserved. -/
lemma step_success (jitter : Nat) (w : World) (u : String) (rest : List String)
    (hq : w.queue = u :: rest) (h : playable w.player u = true) :
    (queue_watcher_step jitter w).2 = none ∧
    (queue_watcher_step jitter w).1.queue = rest ∧
    (queue_watcher_step jitter w).1.published =
      w.published ++ [LEvent.playEv u, LEvent.endEv u] ∧
    (queue_watcher_step jitter w).1.sleeps = w.sleeps ++ [jitter] ∧
    (queue_watcher_step jitter w).1.player.session.resolve = w.player.session.resolve ∧
    (queue_watcher_step jitter w).1.player.session.loadFails = w.player.session.loadFails := by
  obtain ⟨t, hres, hplay⟩ := play_success w.player u h
  simp only [queue_watcher_step, hq, hplay]
  simp [Player.on_track_of_end]

/-- Processing `xs ++ [u]` appends one play/end pair to the trace of `xs`. -/
lemma pairTrace_append (xs : List String) (u : String) :
    pairTrace (xs ++ [u]) = pairTrace xs ++ [LEvent.playEv u, LEvent.endEv u] := by
  induction xs with
  | nil => simp [pairTrace]
  | cons v tail ih => simp [pairTrace, ih]

/-- Running the consumer loop for `n` iterations over a queue of playable
uris publishes exactly the paired play/end trace of the first `n` queued
uris, and no exception escapes. -/
lemma run_published (n : Nat) : ∀ (j : Nat → Nat) (w : World),
    (∀ u ∈ w.queue, playable w.player u = true) →
    (queue_watcher_run j n w).2 = none ∧
    (queue_watcher_run j n w).1.published = w.published ++ pairTrace (w.queue.take n) := by
  induction n with
  | zero => intro j w _; simp [queue_watcher_run, pairTrace]
  | succ n ih =>
    intro j w hall
    cases hq : w.queue with
    | nil =>
      have hrun : queue_watcher_run j (n + 1) w =
          queue_watcher_run (fun i => j (i + 1)) n
            { w with sleeps := w.sleeps ++ [j 0] } := by
        simp only [queue_watcher_run, queue_watcher_step, hq]
      rw [hrun]
      have hall2 : ∀ u ∈ (({ w with sleeps := w.sleeps ++ [j 0] } : World)).queue,
          playable (({ w with sleeps := w.sleeps ++ [j 0] } : World)).player u = true := by
        intro u hu
        exact hall u hu
      obtain ⟨h1, h2⟩ := ih (fun i => j (i + 1)) _ hall2
      refine ⟨h1, ?_⟩
      rw [h2]
      simp [hq, pairTrace]
    | cons u rest =>
      have hu : playable w.player u = true := by
        refine hall u ?_
        rw [hq]
        exact List.mem_cons_self u rest
      obtain ⟨he, hq1, hp1, hs1, hres1, hload1⟩ := step_success (j 0) w u rest hq hu
      rcases hsr : queue_watcher_step (j 0) w with ⟨w1, e⟩
      rw [hsr] at he hq1 hp1 hs1 hres1 hload1
      simp only at he hq1 hp1 hs1 hres1 hload1
      subst he
      have hrun : queue_watcher_run j (n + 1) w =
          queue_watcher_run (fun i => j (i + 1)) n w1 := by
        simp only [queue_watcher_run, hsr]
      rw [hrun]
      have hall1 : ∀ v ∈ w1.queue, playable w1.player v = true := by
        intro v hv
        rw [playable_congr w.player w1.player hres1 hload1 v]
        refine hall v ?_
        rw [hq]
        rw [hq1] at hv
        exact List.mem_cons_of_mem u hv
      obtain ⟨h1, h2⟩ := ih (fun i => j (i + 1)) w1 hall1
      refine ⟨h1, ?_⟩
      rw [h2, hp1, hq1]
      simp [pairTrace, List.take_succ_cons, List.append_assoc]

/-- Whatever the queue contents and backend behaviour (including play
attempts that die with an exception), the published channel trace always
has the paired play/end shape. -/
lemma run_pub_shape (n : Nat) : ∀ (j : Nat → Nat) (w : World) (us : List String),
    w.published = pairTrace us →
    ∃ us2, (queue_watcher_run j n w).1.published = pairTrace us2 := by
  induction n with
  | zero => intro j w us h; exact ⟨us, by simpa [queue_watcher_run] using h⟩
  | succ n ih =>
    intro j w us h
    cases hq : w.queue with
    | nil =>
      have hrun : queue_watcher_run j (n + 1) w =
          queue_watcher_run (fun i => j (i + 1)) n
            { w with sleeps := w.sleeps ++ [j 0] } := by
        simp only [queue_watcher_run, queue_watcher_step, hq]
      rw [hrun]
      exact ih (fun i => j (i + 1)) _ us h
    | cons u rest =>
      rcases hsr : Player.play w.player u with ⟨p1, e⟩
      cases e with
      | some err =>
        have hrun : queue_watcher_run j (n + 1) w =
            ({ w with queue := rest, player := p1 }, some err) := by
          simp only [queue_watcher_run, queue_watcher_step, hq, hsr]
        rw [hrun]
        exact ⟨us, h⟩
      | none =>
        have hrun : queue_watcher_run j (n + 1) w =
            queue_watcher_run (fun i => j (i + 1)) n
              { queue := rest,
                published := w.published ++ [LEvent.playEv u, LEvent.endEv u],
                player := if p1.stopEvent then p1 else Player.on_track_of_end p1,
                sleeps := w.sleeps ++ [j 0] } := by
          simp only [queue_watcher_run, queue_watcher_step, hq, hsr]
        rw [hrun]
        refine ih (fun i => j (i + 1)) _ (us ++ [u]) ?_
        simp [h, pairTrace_append]

/-- The paired trace contains one play event per occurrence of a uri in the
processed list. -/
lemma pairTrace_countPlay (u : String) (us : List String) :
    countPlay u (pairTrace us) = us.count u := by
  induction us with
  | nil => simp [pairTrace, countPlay]
  | cons v tail ih =>
    by_cases hv : v = u
    · subst hv
      simp [pairTrace, countPlay, List.count_cons] at ih ⊢
      omega
    · simp [pairTrace, countPlay, List.count_cons, hv] at ih ⊢
      exact ih

/-- The paired trace contains one end event per occurrence of a uri in the
processed list. -/
lemma pairTrace_countEnd (u : String) (us : List String) :
    countEnd u (pairTrace us) = us.count u := by
  induction us with
  | nil => simp [pairTrace, countEnd]
  | cons v tail ih =>
    by_cases hv : v = u
    · subst hv
      simp [pairTrace, countEnd, List.count_cons] at ih ⊢
      omega
    · simp [pairTrace, countEnd, List.count_cons, hv] at ih ⊢
      exact ih

/-- In every prefix of a paired trace, the number of end events for a uri
never exceeds the number of play events for it: no end is published before
its matching play. -/
lemma pairTrace_take_bound (us : List String) : ∀ (k : Nat) (u : String),
    countEnd u ((pairTrace us).take k) ≤ countPlay u ((pairTrace us).take k) := by
  induction us with
  | nil => intro k u; simp [pairTrace, countPlay, countEnd]
  | cons v tail ih =>
    intro k u
    match k with
    | 0 => simp [countPlay, countEnd]
    | 1 => simp [pairTrace, countPlay, countEnd, List.count_cons]
    | k + 2 =>
      have hk := ih k u
      by_cases hv : v = u
      · subst hv
        simp [pairTrace, countPlay, countEnd, List.count_cons] at hk ⊢
        omega
      · simp [pairTrace, countPlay, countEnd, List.count_cons, hv] at hk ⊢
        exact hk

/-- Claim C1 (code bug). The claim says a track resolution/load failure is
logged, the track abandoned, and the consumer loop continues with no
exception propagating out of `play`. In the code, the `except` handler
itself raises `AttributeError` (the attribute access `.uri` on a string
literal), so the exception propagates out of `Player.play`, and
`queue_watcher` — which has no exception handling — dies on it. Evaluated
here at a concrete failing input: `play` returns a propagated
`AttributeError` and the consumer-loop iteration aborts with it instead of
continuing. -/
theorem c1_play_failure_crashes_loop :
    (Player.play pBad "spotify:track:bad").2 = some PyError.attributeError ∧
    (queue_watcher_step 0 wBad).2 = some PyError.attributeError := by
  constructor <;> rfl

/-- Claim C2 counterexample. In a queue-consumer iteration that pops a
playable uri, the effect trace of the `play` call is
get-track, load, backend-play, clear: `STOP_EVENT` is cleared strictly
after the backend play request, never before it — and on a failed attempt
(`pBad`) the signal is not cleared at all (it stays `true`). This refutes
the claim that the clear happens immediately before each play call
attempt. -/
theorem c2_clear_is_not_before_play :
    (Player.play pStopSet "a").1.trace =
      [Act.getTrack "a", Act.loadReq { uri := "a" }, Act.playReq, Act.clearStop] ∧
    occursBefore Act.clearStop Act.playReq ((Player.play pStopSet "a").1.trace) = false ∧
    occursBefore Act.playReq Act.clearStop ((Player.play pStopSet "a").1.trace) = true ∧
    (Player.play pBad "x").1.stopEvent = true := by
  refine ⟨rfl, ?_, ?_, rfl⟩ <;> decide

/-- Claim C2 as amended: `STOP_EVENT` is cleared by `play` itself, in the
`else` clause, immediately after the backend play request succeeds; on a
play attempt that fails the signal is left exactly as it was. -/
theorem c2_amended_clear_after_successful_play (p : Player) (uri : String) :
    (∀ t, p.session.resolve uri = some t → p.session.loadFails t = false →
        (Player.play p uri).1.stopEvent = false ∧
        (Player.play p uri).1.trace =
          p.trace ++ [Act.getTrack uri, Act.loadReq t, Act.playReq, Act.clearStop] ∧
        occursBefore Act.playReq Act.clearStop
          (((Player.play p uri).1.trace).drop p.trace.length) = true) ∧
    ((Player.play p uri).2.isSome = true →
        (Player.play p uri).1.stopEvent = p.stopEvent) := by
  constructor
  · intro t hres hload
    have hp : playable p uri = true := by
      unfold playable
      rw [hres]
      simp [hload]
    obtain ⟨t2, hres2, hplay⟩ := play_success p uri hp
    rw [hres] at hres2
    cases hres2
    rw [hplay]
    refine ⟨rfl, rfl, ?_⟩
    simp [List.drop_left, occursBefore]
  · intro hfail
    unfold Player.play at hfail ⊢
    cases hres : p.session.resolve uri with
    | none => rfl
    | some t =>
      simp only [hres] at hfail ⊢
      cases hload : p.session.loadFails t with
      | true => simp [hload]
      | false => simp [hload] at hfail

/-- Witness for the amended C2 at concrete inputs: a successful play leaves
the signal cleared, and a failed play leaves the previously-set signal
untouched. -/
theorem c2_amended_witness :
    (Player.play pStopSet "a").1.stopEvent = false ∧
    (Player.play pBad "x").1.stopEvent = pBad.stopEvent :=
  ⟨((c2_amended_clear_after_successful_play pStopSet "a").1
      { uri := "a" } rfl rfl).1,
   (c2_amended_clear_after_successful_play pBad "x").2 rfl⟩

/-- Claim C3 (code bug). The claim says the play lifecycle event is
published unconditionally after the play call, including when the attempt
failed with a resolution/load error. Evaluated at a concrete failing
input: the uri is popped from the queue, but `player.play` raises
(`AttributeError` from the broken `except` handler), `queue_watcher` has
no handler, and the publish is never reached — nothing is published for
the failed track. -/
theorem c3_no_play_event_on_failed_play :
    (queue_watcher_step 0 wBad).1.queue = [] ∧
    (queue_watcher_step 0 wBad).1.published = [] ∧
    (queue_watcher_step 0 wBad).2 = some PyError.attributeError := by
  refine ⟨rfl, rfl, rfl⟩

/-- Claim C4. On a `play(uri)` call whose track resolution or load fails,
the whole backend session state (player state and loaded track included)
and `STOP_EVENT` are exactly what they were before the call: the failure
path neither clears nor sets the signal and does not touch the player
state. -/
theorem c4_failure_leaves_state_untouched (p : Player) (uri : String)
    (hfail : (Player.play p uri).2.isSome = true) :
    (Player.play p uri).1.session = p.session ∧
    (Player.play p uri).1.stopEvent = p.stopEvent := by
  unfold Player.play at hfail ⊢
  cases hres : p.session.resolve uri with
  | none => exact ⟨rfl, rfl⟩
  | some t =>
    simp only [hres] at hfail ⊢
    cases hload : p.session.loadFails t with
    | true => simp [hload]
    | false => simp [hload] at hfail

/-- Witness for C4: a concrete failing `play` call, where resolution
raises; the hypothesis holds by evaluation and the conclusion follows by
the theorem. -/
theorem c4_witness :
    (Player.play pBad "spotify:track:bad").1.session = pBad.session ∧
    (Player.play pBad "spotify:track:bad").1.stopEvent = pBad.stopEvent :=
  c4_failure_leaves_state_untouched pBad "spotify:track:bad" rfl

/-- Claim C5 counterexample. A control-channel data message whose payload
is not valid JSON is not dropped: `json.loads` raises `ValueError`, there
is no exception handling in `event_watcher`, and the error propagates,
killing the control-event loop (no player method is dispatched either
way). -/
theorem c5_malformed_json_kills_loop :
    (event_watcher_step pIdle { itemType := "message", dataParse := none }).2.2 =
      some PyError.valueError ∧
    (event_watcher_step pIdle { itemType := "message", dataParse := none }).2.1 = [] := by
  exact ⟨rfl, rfl⟩

/-- Claim C5 as amended: a data message that parses as a JSON object but
lacks the `event` field, or carries an unrecognized string event, is
dropped without dispatching any player method and without error, and the
loop continues; non-data envelopes are likewise ignored. But a payload
that is not valid JSON makes `json.loads` raise an uncaught `ValueError`
that terminates the control-event loop (and a payload that is valid JSON
but not an object dies on `.get` with `AttributeError`). -/
theorem c5_amended_event_dispatch (p : Player) (fields : List (String × PyVal)) :
    (lookupPyDict fields "event" = none →
      event_watcher_step p { itemType := "message",
                             dataParse := some (PyVal.pdict fields) } = (p, [], none)) ∧
    (∀ e, lookupPyDict fields "event" = some (PyVal.pstr e) →
      e ≠ "pause" → e ≠ "resume" →
      event_watcher_step p { itemType := "message",
                             dataParse := some (PyVal.pdict fields) } = (p, [], none)) ∧
    (∀ d, event_watcher_step p { itemType := "subscribe", dataParse := d } =
      (p, [], none)) ∧
    (event_watcher_step p { itemType := "message", dataParse := none }).2.2 =
      some PyError.valueError := by
  refine ⟨?_, ?_, ?_, rfl⟩
  · intro hmiss
    simp [event_watcher_step, hmiss]
  · intro e hev h1 h2
    simp [event_watcher_step, hev, h1, h2]
  · intro d
    simp [event_watcher_step]

/-- Witness for the amended C5: an object payload with no `event` field
and an object payload with an unknown event are both dropped with the loop
alive. -/
theorem c5_amended_witness :
    event_watcher_step pIdle { itemType := "message",
                               dataParse := some (PyVal.pdict []) } = (pIdle, [], none) ∧
    event_watcher_step pIdle
        { itemType := "message",
          dataParse := some (PyVal.pdict [("event", PyVal.pstr "skip")]) } =
      (pIdle, [], none) :=
  ⟨(c5_amended_event_dispatch pIdle []).1 rfl,
   (c5_amended_event_dispatch pIdle [("event", PyVal.pstr "skip")]).2.1
     "skip" rfl (by decide) (by decide)⟩

/-- Claim C6. Lifecycle event pairing for the queue-consumer loop: over
any run starting from an empty channel history, (1) in every prefix of the
published trace, the number of end events for a uri never exceeds the
number of its play events — no end is ever published without a prior
matching play — and (2) when the queued uris all resolve and load, each
uri occurrence among the first `n` queued items yields exactly one play
and exactly one end event. -/
theorem c6_lifecycle_event_pairing (j : Nat → Nat) (n : Nat) (w : World)
    (hpub : w.published = []) :
    (∀ k u, countEnd u (((queue_watcher_run j n w).1.published).take k) ≤
            countPlay u (((queue_watcher_run j n w).1.published).take k)) ∧
    ((∀ u ∈ w.queue, playable w.player u = true) →
      ∀ u, countPlay u ((queue_watcher_run j n w).1.published) =
             (w.queue.take n).count u ∧
           countEnd u ((queue_watcher_run j n w).1.published) =
             (w.queue.take n).count u) := by
  constructor
  · intro k u
    obtain ⟨us2, hshape⟩ := run_pub_shape n j w [] (by simpa [pairTrace] using hpub)
    rw [hshape]
    exact pairTrace_take_bound us2 k u
  · intro hall u
    obtain ⟨_, hpubeq⟩ := run_published n j w hall
    rw [hpubeq, hpub, List.nil_append]
    exact ⟨pairTrace_countPlay u _, pairTrace_countEnd u _⟩

/-- Witness for C6 on a concrete two-track run: the one-event prefix has
no unmatched end, and the first track gets exactly one play event. -/
theorem c6_witness :
    countEnd "a" (((queue_watcher_run (fun _ => 0) 2 wTwoTracks).1.published).take 1) ≤
      countPlay "a" (((queue_watcher_run (fun _ => 0) 2 wTwoTracks).1.published).take 1) ∧
    countPlay "a" ((queue_watcher_run (fun _ => 0) 2 wTwoTracks).1.published) =
      (wTwoTracks.queue.take 2).count "a" :=
  ⟨(c6_lifecycle_event_pairing (fun _ => 0) 2 wTwoTracks rfl).1 1 "a",
   ((c6_lifecycle_event_pairing (fun _ => 0) 2 wTwoTracks rfl).2 (by decide) "a").1⟩

/-- Claim C7. `pause()` in any backend state other than PLAYING is a
complete no-op (state unchanged, no backend request), and in PLAYING it
issues exactly one backend pause request; dually, `resume()` in any state
other than PAUSED is a complete no-op, and in PAUSED it issues exactly one
backend play request. -/
theorem c7_pause_resume_conditional (p : Player) :
    (p.session.playerState ≠ PlayerState.playing → Player.pause p = p) ∧
    (p.session.playerState = PlayerState.playing →
      (Player.pause p).trace = p.trace ++ [Act.pauseReq] ∧
      (Player.pause p).session.playerState = PlayerState.paused ∧
      (Player.pause p).stopEvent = p.stopEvent) ∧
    (p.session.playerState ≠ PlayerState.paused → Player.resume p = p) ∧
    (p.session.playerState = PlayerState.paused →
      (Player.resume p).trace = p.trace ++ [Act.playReq] ∧
      (Player.resume p).session.playerState = PlayerState.playing ∧
      (Player.resume p).stopEvent = p.stopEvent) := by
  refine ⟨?_, ?_, ?_, ?_⟩ <;> intro h <;>
    simp [Player.pause, Player.resume, h]

/-- Witness for C7 at concrete states: pausing an idle player is a no-op,
pausing a playing player reaches PAUSED, resuming a playing player is a
no-op, resuming a paused player reaches PLAYING. -/
theorem c7_witness :
    Player.pause pIdle = pIdle ∧
    (Player.pause pPlaying).session.playerState = PlayerState.paused ∧
    Player.resume pPlaying = pPlaying ∧
    (Player.resume pPaused).session.playerState = PlayerState.playing :=
  ⟨(c7_pause_resume_conditional pIdle).1 (by decide),
   ((c7_pause_resume_conditional pPlaying).2.1 rfl).2.1,
   (c7_pause_resume_conditional pPlaying).2.2.1 (by decide),
   ((c7_pause_resume_conditional pPaused).2.2.2 rfl).2.1⟩

/-- Claim C8. The end-of-track callback unloads the track from the backend
player (player state UNLOADED, no loaded track) and sets `STOP_EVENT`, the
signal the queue-consumer loop blocks on; in the effect trace the unload
request comes strictly before the signal is set. -/
theorem c8_end_callback_unloads_then_sets (p : Player) :
    (Player.on_track_of_end p).stopEvent = true ∧
    (Player.on_track_of_end p).session.loadedTrack = none ∧
    (Player.on_track_of_end p).session.playerState = PlayerState.unloaded ∧
    (Player.on_track_of_end p).trace = p.trace ++ [Act.unloadReq, Act.setStop] ∧
    occursBefore Act.unloadReq Act.setStop
      (((Player.on_track_of_end p).trace).drop p.trace.length) = true := by
  refine ⟨rfl, rfl, rfl, rfl, ?_⟩
  simp [Player.on_track_of_end, List.drop_left, occursBefore]

/-- Claim C9 counterexample. The claim says the jittered sleep is
performed only in iterations where the queue was empty. In the code the
`gevent.sleep(random.randint(0, 2) * 0.001)` sits after the `if` block,
inside the `while True` body, so an iteration that pops and plays a track
sleeps too: here a non-empty-queue iteration completes and still records
the sleep. -/
theorem c9_sleep_also_when_queue_nonempty :
    wOneTrack.queue ≠ [] ∧
    (queue_watcher_step 2 wOneTrack).1.sleeps = wOneTrack.sleeps ++ [2] ∧
    (queue_watcher_step 2 wOneTrack).2 = none := by
  refine ⟨by decide, rfl, rfl⟩

/-- Claim C9 as amended: in an empty-queue iteration nothing is popped, no
lifecycle event is published, and the loop sleeps the jittered interval;
and every iteration that completes without a propagating exception —
empty-queue or not — ends with that sleep, whose duration (for
`randint(0,2)` milliseconds, i.e. `jitter ≤ 2`) stays within the 0–2 ms
bound. -/
theorem c9_amended_sleep_every_iteration (jitter : Nat) (w : World)
    (hj : jitter ≤ 2) :
    (w.queue = [] →
      queue_watcher_step jitter w =
        ({ w with sleeps := w.sleeps ++ [jitter] }, none)) ∧
    ((queue_watcher_step jitter w).2 = none →
      (queue_watcher_step jitter w).1.sleeps = w.sleeps ++ [jitter]) ∧
    (∀ d ∈ (queue_watcher_step jitter w).1.sleeps, d ∈ w.sleeps ∨ d ≤ 2) := by
  refine ⟨?_, ?_, ?_⟩
  · intro hq
    simp [queue_watcher_step, hq]
  · intro hnone
    cases hq : w.queue with
    | nil => simp [queue_watcher_step, hq]
    | cons u rest =>
      rcases hp : Player.play w.player u with ⟨p1, e⟩
      cases e with
      | some err => simp [queue_watcher_step, hq, hp] at hnone
      | none => simp [queue_watcher_step, hq, hp]
  · intro d hd
    cases hq : w.queue with
    | nil =>
      simp [queue_watcher_step, hq] at hd
      rcases hd with h | h
      · exact Or.inl h
      · exact Or.inr (h ▸ hj)
    | cons u rest =>
      rcases hp : Player.play w.player u with ⟨p1, e⟩
      cases e with
      | some err =>
        simp [queue_watcher_step, hq, hp] at hd
        exact Or.inl hd
      | none =>
        simp [queue_watcher_step, hq, hp] at hd
        rcases hd with h | h
        · exact Or.inl h
        · exact Or.inr (h ▸ hj)

/-- Witness for the amended C9: an empty-queue iteration just sleeps, and
a track-playing iteration also ends with the sleep. -/
theorem c9_amended_witness :
    queue_watcher_step 1 wEmptyQ =
      ({ wEmptyQ with sleeps := wEmptyQ.sleeps ++ [1] }, none) ∧
    (queue_watcher_step 1 wOneTrack).1.sleeps = wOneTrack.sleeps ++ [1] :=
  ⟨(c9_amended_sleep_every_iteration 1 wEmptyQ (by decide)).1 rfl,
   (c9_amended_sleep_every_iteration 1 wOneTrack (by decide)).2.1 rfl⟩

/-- Claim C10. Sink selection in `Player.__init__` uses
`sinks.get(sink, FakeSink)`: the known names select `AlsaSink` and
`FakeSink`, and any other sink name silently falls back to `FakeSink`
rather than failing. -/
theorem c10_unknown_sink_falls_back_to_fake :
    selectSink "alsa" = Sink.alsaSink ∧
    selectSink "fake" = Sink.fakeSink ∧
    ∀ s : String, s ≠ "alsa" → s ≠ "fake" → selectSink s = Sink.fakeSink := by
  refine ⟨rfl, rfl, ?_⟩
  intro s h1 h2
  have hb1 : (s == "alsa") = false := by
    simp [h1]
  have hb2 : (s == "fake") = false := by
    simp [h2]
  simp [selectSink, sinks, List.lookup, hb1, hb2]

/-- Witness for C10 at a concrete unknown sink name. -/
theorem c10_witness : selectSink "pulse" = Sink.fakeSink :=
  c10_unknown_sink_falls_back_to_fake.2.2 "pulse" (by decide) (by decide)
